import Mathlib

/-!
Shallow embedding of rizza's entity-testing core (src/rizza/entity_tester.py).

Modelling conventions:
* Python exceptions are modelled with `Except PyErr`: a result of
  `Except.error e` means the Python call raised `e` to its caller, while
  `Except.ok v` means the call returned the value `v`.  A captured exception
  that is *returned* as a value (as in `EntityTestTask.execute`'s
  `except ... return err` branches) is the ordinary value `Val.vexc e`.
* Python dicts are modelled as association lists (`List (String × _)`),
  which preserves the insertion order that Python 3.7+ dictionaries guarantee.
* The external collaborators (the nailgun entity catalog and the
  `rizza.helpers.inputs` generator module) are passed in explicitly as
  registries: an entity class is modelled by `EntityCls` (its name, its
  `_fields` dict, its method signatures, and its constructor behaviour), and
  an input generator by the outcome of invoking it once
  (`Except PyErr Val`; generators are zero-argument functions).
* Lazy generators are modelled by the fully forced sequence: a Python
  generator whose iteration raises is modelled as `Except.error`, one that
  yields `ts` as `Except.ok ts`.
* The helper module `rizza.helpers.misc` is not part of the sources given
  under src/; its four functions are modelled from the specification text
  (each such definition is marked `Modelled from the spec:`).
-/

/-- Kind tag of a Python exception. -/
inductive ErrKind where
  | typeError
  | keyError
  | attributeError
  | nameError
  | otherError
  deriving DecidableEq, Repr

/-- A Python exception object: its kind and message. -/
structure PyErr where
  kind : ErrKind
  msg : String
  deriving DecidableEq, Repr

/-- Python values that flow through the tester: strings (generator names and
literals), numbers (sample generator outputs), and exception objects that
`execute` returns as captured failures. -/
inductive Val where
  | vstr : String → Val
  | vnat : Nat → Val
  | vexc : PyErr → Val
  deriving DecidableEq, Repr

/-- An instantiated entity: its bound methods, each taking keyword arguments
and either returning a value or raising. -/
structure EntityObj where
  methods : List (String × (List (String × Val) → Except PyErr Val))

/-- An entity class from the external nailgun catalog: its `__name__`, its
`_fields` dict (descriptors are opaque, modelled as `Unit`), the
`getargspec` argument lists of its non-dunder methods, and its constructor.
Nailgun constructors raise `TypeError` on undeclared field names; that
behaviour lives in the `construct` field of each concrete instance. -/
structure EntityCls where
  name : String
  fields : List (String × Unit)
  clsMethods : List (String × List String)
  construct : List (String × Val) → Except PyErr EntityObj

/-- The value stored in `EntityTester.entity`: a still-unresolved string
name, a resolved entity class, or Python `None`. -/
inductive EntityRef where
  | str : String → EntityRef
  | cls : EntityCls → EntityRef
  | pynone : EntityRef

/-- Python truthiness of an `EntityTester.entity` value: a string is truthy
iff nonempty, a class object is truthy, `None` is falsy. -/
def EntityRef.truthy : EntityRef → Bool
  | .str s => s != ""
  | .cls _ => true
  | .pynone => false

/-- State of an `EntityTester` (entity_tester.py lines 11-23): `fields` and
`methods` start out as Python `None` and are set by `prep`. -/
structure EntityTester where
  entity : EntityRef
  fields : Option (List (String × Unit))
  methods : Option (List (String × List String))

/-- A test task (entity_tester.py lines 128-142): entity name, method name,
and the field and argument dicts (values are generator names until
`execute` resolves them in place). -/
structure EntityTestTask where
  entity : String
  method : String
  field_dict : List (String × Val)
  arg_dict : List (String × Val)
  deriving DecidableEq, Repr

/-- True iff the string contains two consecutive underscores, the `"__" in
name` test the source uses to drop dunder members. -/
def containsDunder : List Char → Bool
  | '_' :: '_' :: _ => true
  | _ :: rest => containsDunder rest
  | [] => false

/-- String form of the dunder test. -/
def hasDunder (s : String) : Bool := containsDunder s.toList

/-- Modelled from the spec: registries expose "exclusion filtering by name"
(spec sections 2 and 6); `rizza.helpers.misc.dictionary_exclusion` is not in
src/.  Entries whose name is in the exclusion list are dropped; with no
exclusion the dict is unchanged. -/
def dictionary_exclusion {α : Type} (d : List (String × α))
    (exclude : Option (List String)) : List (String × α) :=
  match exclude with
  | none => d
  | some ex => d.filter (fun kv => !(ex.contains kv.1))

/-- `EntityTester.pull_entities` (lines 87-94): the `dir`-based discovery of
the external nailgun module is modelled by the given registry list (already
name-filtered, since that filter runs over external names), followed by the
exclusion filter. -/
def EntityTester.pull_entities (reg : List (String × EntityCls))
    (exclude : Option (List String)) : List (String × EntityCls) :=
  dictionary_exclusion reg exclude

/-- `EntityTester.pull_fields` (lines 106-110): for a truthy entity it
returns `entity()._fields` after exclusion; calling a string raises
`TypeError`; for a falsy entity the function falls off the end and returns
Python `None`. -/
def EntityTester.pull_fields (e : EntityRef) (exclude : Option (List String)) :
    Except PyErr (Option (List (String × Unit))) :=
  match e with
  | .cls c => Except.ok (some (dictionary_exclusion c.fields exclude))
  | .str s =>
      if s = "" then Except.ok none
      else Except.error ⟨ErrKind.typeError, "str object is not callable"⟩
  | .pynone => Except.ok none

/-- `EntityTester.pull_methods` (lines 96-104): for a truthy entity, the
instance's non-dunder methods after exclusion; calling a string raises
`TypeError`; for a falsy entity the local `mdict` is unbound at the return,
a `NameError`. -/
def EntityTester.pull_methods (e : EntityRef) (exclude : Option (List String)) :
    Except PyErr (Option (List (String × List String))) :=
  match e with
  | .cls c =>
      Except.ok (some (dictionary_exclusion
        (c.clsMethods.filter (fun kv => !(hasDunder kv.1))) exclude))
  | .str s =>
      if s = "" then Except.error ⟨ErrKind.nameError, "mdict is not defined"⟩
      else Except.error ⟨ErrKind.typeError, "str object is not callable"⟩
  | .pynone => Except.error ⟨ErrKind.nameError, "mdict is not defined"⟩

/-- `EntityTester.pull_args` (lines 112-117): the method's `getargspec`
argument list without `self`; `None` in, `None` out. -/
def EntityTester.pull_args (method : Option (List String)) : Option (List String) :=
  method.map (fun args => args.filter (fun a => a != "self"))

/-- `EntityTester.pull_input_methods` (lines 119-125): the generator module's
non-dunder members (a generator is modelled by the outcome of invoking it),
then the exclusion filter. -/
def EntityTester.pull_input_methods (gens : List (String × Except PyErr Val))
    (exclude : Option (List String)) : List (String × Except PyErr Val) :=
  dictionary_exclusion (gens.filter (fun kv => !(hasDunder kv.1))) exclude

/-- `EntityTester.prep` (lines 25-38): resolve a string entity name through
the registry (the stored string always overrides the `entity` parameter),
then, if the stored entity is truthy, gather fields and methods.  Class
identity for the `entity in elist.values()` test is modelled by class
name. -/
def EntityTester.prep (reg : List (String × EntityCls)) (t : EntityTester)
    (entity : EntityRef) (field_exclude method_exclude : Option (List String)) :
    Except PyErr EntityTester :=
  let entity := match t.entity with
    | .str s => EntityRef.str s
    | _ => entity
  let t1 :=
    if entity.truthy then
      let elist := EntityTester.pull_entities reg none
      match entity with
      | .str s =>
          match elist.lookup s with
          | some c => { t with entity := EntityRef.cls c }
          | none => t
      | .cls c =>
          if elist.any (fun kv => kv.2.name == c.name) then
            { t with entity := EntityRef.cls c }
          else t
      | .pynone => t
    else t
  if t1.entity.truthy then
    match EntityTester.pull_fields t1.entity field_exclude with
    | Except.error e => Except.error e
    | Except.ok fs =>
        match EntityTester.pull_methods t1.entity method_exclude with
        | Except.error e => Except.error e
        | Except.ok ms => Except.ok { t1 with fields := fs, methods := ms }
  else Except.ok t1

/-- Python truthiness defaulting of a numeric option (`if not max_inputs:`):
`None` and `0` are both replaced by the default. -/
def defaultMaxInputs : Option Nat → Nat → Nat
  | none, d => d
  | some 0, d => d
  | some (n + 1), _ => n + 1

/-- All injective ordered selections of `k` distinct elements from the list
(every permutation of every size-`k` combination). -/
def perm_selections : Nat → List String → List (List String)
  | 0, _ => [[]]
  | n + 1, l => l.flatMap (fun x => (perm_selections n (l.erase x)).map (fun ys => x :: ys))

/-- Modelled from the spec: `rizza.helpers.misc.product_list` is not in
src/.  Spec section 4.1 calls for "every permutation of every size-k
generator combination"; sizes run from 1 up to the bound, and a size larger
than the collection produces nothing ("skip, do not fail"). -/
def product_list (elements : List String) (max_size : Nat) : List (List String) :=
  (List.range max_size).flatMap (fun i => perm_selections (i + 1) elements)

/-- Modelled from the spec: `rizza.helpers.misc.combination_list` is not in
src/.  Spec section 4.1 `subsets_up_to`: every combination of sizes 1 up to
the bound, clamped to the collection size, with the full size used when the
bound is unspecified (Python truthiness, so 0 also means unspecified). -/
def combination_list (elements : List String) (max_size : Option Nat) :
    List (List String) :=
  let m := match max_size with
    | none => elements.length
    | some 0 => elements.length
    | some (n + 1) => min (n + 1) elements.length
  (List.range m).flatMap (fun i => List.sublistsLen (i + 1) elements)

/-- Modelled from the spec: `rizza.helpers.misc.map_field_inputs` is not in
src/.  Spec section 3 ("one generator assigned per name ... an
input-generator combination of matching size") and section 4.1 ("empty
names → yields a single empty mapping"): each combination of matching size
is zipped onto the names; an empty name list yields one empty mapping. -/
def map_field_inputs (fields : List String) (input_combos : List (List String)) :
    List (List (String × String)) :=
  if fields.isEmpty then [[]]
  else (input_combos.filter (fun c => c.length == fields.length)).map
    (fun c => fields.zip c)

/-- The per-method bound of the argument cross product, exactly as brute_force
writes it (entity_tester.py line 69):
`max_inputs if max_inputs <= len(args) else len(args)`. -/
def brute_arg_bound (max_inputs nargs : Nat) : Nat :=
  if max_inputs ≤ nargs then max_inputs else nargs

/-- `EntityTester.brute_force` (lines 47-85), fully forced.  Accessing
`__name__` on a string or `None` entity raises `AttributeError`; iterating
`None` methods or fields raises `TypeError`.  The task stream itself is the
returned list, in the source's nesting order: field combination, field
mapping, method, method argument mapping. -/
def EntityTester.brute_force (gens : List (String × Except PyErr Val))
    (t : EntityTester) (max_fields max_inputs : Option Nat) :
    Except PyErr (List EntityTestTask) :=
  match t.entity with
  | .str _ =>
      Except.error ⟨ErrKind.attributeError, "str object has no attribute __name__"⟩
  | .pynone =>
      Except.error ⟨ErrKind.attributeError, "NoneType object has no attribute __name__"⟩
  | .cls c =>
    let entity_name := c.name
    let input_list := (EntityTester.pull_input_methods gens (some ["long"])).map Prod.fst
    let mi := defaultMaxInputs max_inputs input_list.length
    let input_combos := product_list input_list mi
    match t.methods with
    | none => Except.error ⟨ErrKind.typeError, "NoneType object is not iterable"⟩
    | some methods =>
      let method_combo_dict := methods.map (fun nm =>
        let args := (EntityTester.pull_args (some nm.2)).getD []
        (nm.1, map_field_inputs args
          (product_list input_list (brute_arg_bound mi args.length))))
      match t.fields with
      | none =>
          Except.error ⟨ErrKind.typeError, "argument of type NoneType is not iterable"⟩
      | some fields =>
        let field_combo_list := combination_list (fields.map Prod.fst) max_fields
        Except.ok (field_combo_list.flatMap (fun combo =>
          (map_field_inputs combo input_combos).flatMap (fun fi_dict =>
            method_combo_dict.flatMap (fun mc =>
              mc.2.map (fun mc_dict =>
                { entity := entity_name
                  method := mc.1
                  field_dict := fi_dict.map (fun kv => (kv.1, Val.vstr kv.2))
                  arg_dict := mc_dict.map (fun kv => (kv.1, Val.vstr kv.2)) })))))

/-- One value of a task dict resolved, as `execute` writes it
(entity_tester.py lines 150-153): `imeths.get(inpt, lambda: inpt)()` — a
string found in the generator registry is replaced by the outcome of
invoking that generator (which may itself raise); anything else is the
literal value. -/
def resolveEntry (imeths : List (String × Except PyErr Val)) (inpt : Val) :
    Except PyErr Val :=
  match inpt with
  | Val.vstr s =>
      match imeths.lookup s with
      | some g => g
      | none => Except.ok (Val.vstr s)
  | v => Except.ok v

/-- A task dict resolved left to right, as the dict comprehensions on lines
150-153 do; the first raising generator propagates. -/
def resolveDict (imeths : List (String × Except PyErr Val)) :
    List (String × Val) → Except PyErr (List (String × Val))
  | [] => Except.ok []
  | (k, v) :: rest =>
    match resolveEntry imeths v with
    | Except.error e => Except.error e
    | Except.ok w =>
        match resolveDict imeths rest with
        | Except.error e => Except.error e
        | Except.ok ws => Except.ok ((k, w) :: ws)

/-- The part of `execute` from entity construction onward (entity_tester.py
lines 154-161).  The registry lookup and the constructor call sit outside
the `try`, so their exceptions propagate (`Except.error`); from the
`getattr` on, exceptions are captured and returned as values
(`Val.vexc`). -/
def invoke_stage (ents : List (String × EntityCls)) (t : EntityTestTask) :
    Except PyErr Val :=
  match (EntityTester.pull_entities ents none).lookup t.entity with
  | none => Except.error ⟨ErrKind.keyError, t.entity⟩
  | some cls =>
    match cls.construct t.field_dict with
    | Except.error e => Except.error e
    | Except.ok obj =>
      match obj.methods.lookup t.method with
      | none => Except.ok (Val.vexc ⟨ErrKind.attributeError, t.method⟩)
      | some m =>
        match m t.arg_dict with
        | Except.ok v => Except.ok v
        | Except.error e => Except.ok (Val.vexc e)

/-- `EntityTestTask.execute` (lines 144-161).  Returns the Python outcome
(`Except.error` = an exception escaped the call; `Except.ok` = a value was
returned, possibly a captured exception object) together with the task's
state afterwards: the dict comprehensions reassign `field_dict` and then
`arg_dict` in place before the entity is constructed. -/
def EntityTestTask.execute (ents : List (String × EntityCls))
    (gens : List (String × Except PyErr Val)) (t : EntityTestTask) :
    Except PyErr Val × EntityTestTask :=
  match resolveDict (EntityTester.pull_input_methods gens none) t.field_dict with
  | Except.error e => (Except.error e, t)
  | Except.ok fd =>
    match resolveDict (EntityTester.pull_input_methods gens none) t.arg_dict with
    | Except.error e => (Except.error e, { t with field_dict := fd })
    | Except.ok ad =>
      let t2 : EntityTestTask := { t with field_dict := fd, arg_dict := ad }
      (invoke_stage ents t2, t2)

/-- True iff a Python call raised (the `Except.error` side). -/
def raisesError {α : Type} : Except PyErr α → Bool
  | Except.error _ => true
  | Except.ok _ => false

/-- Totality of a generator registry: every generator that can be looked up
returns a value when invoked (none of them raises). -/
def generators_total (imeths : List (String × Except PyErr Val)) : Prop :=
  ∀ s g, imeths.lookup s = some g → ∃ v, g = Except.ok v

/-- Modelled from the spec: the resolved value of one mapping entry — "every
generator-name value ... is replaced by the result of invoking the matching
generator (names not found in the registry are treated as literal values,
not an error)".  A generator whose invocation raises has no spec-side
result; that branch is unreachable under `generators_total` and falls back
to the literal so the function stays total. -/
def spec_resolve (imeths : List (String × Except PyErr Val)) (v : Val) : Val :=
  match v with
  | Val.vstr s =>
      match imeths.lookup s with
      | some (Except.ok w) => w
      | some (Except.error _) => Val.vstr s
      | none => Val.vstr s
  | w => w

theorem resolveEntry_total (imeths : List (String × Except PyErr Val))
    (h : generators_total imeths) (v : Val) :
    resolveEntry imeths v = Except.ok (spec_resolve imeths v) := by
  cases v with
  | vstr s =>
      cases hg : imeths.lookup s with
      | none => simp [resolveEntry, spec_resolve, hg]
      | some g =>
          obtain ⟨w, rfl⟩ := h s g hg
          simp [resolveEntry, spec_resolve, hg]
  | vnat n => rfl
  | vexc e => rfl

theorem resolveDict_total (imeths : List (String × Except PyErr Val))
    (h : generators_total imeths) :
    ∀ d : List (String × Val),
      resolveDict imeths d
        = Except.ok (d.map (fun kv => (kv.1, spec_resolve imeths kv.2)))
  | [] => rfl
  | (k, v) :: rest => by
      simp [resolveDict, resolveEntry_total imeths h v, resolveDict_total imeths h rest]

/-- C1: the claim says `execute()` always returns a value and never lets an
exception escape, including failures during generator resolution and entity
construction.  The code refutes it: resolution and construction happen
before the `try` (entity_tester.py lines 149-154), so a generator that
raises while being invoked, and a `KeyError` from looking up the entity
name, both escape `execute` instead of being returned. -/
theorem execute_raises_past_boundary :
    (EntityTestTask.execute [] [("boom", Except.error ⟨ErrKind.otherError, "boom"⟩)]
        ⟨"E", "m", [("f", Val.vstr "boom")], []⟩).1
      = Except.error ⟨ErrKind.otherError, "boom"⟩
    ∧ (EntityTestTask.execute [] [] ⟨"Missing", "m", [], []⟩).1
      = Except.error ⟨ErrKind.keyError, "Missing"⟩
    ∧ raisesError (EntityTestTask.execute []
        [("boom", Except.error ⟨ErrKind.otherError, "boom"⟩)]
        ⟨"E", "m", [("f", Val.vstr "boom")], []⟩).1 = true :=
  ⟨rfl, rfl, rfl⟩

/-- C2: the claim says a field mapping naming a field the entity constructor
does not accept yields a captured parameter-mismatch failure object from
`execute()`.  The code refutes it: the constructor call on line 154 sits
outside the `try` that begins on line 156, so the constructor's `TypeError`
escapes to the caller instead of being returned. -/
theorem execute_construction_mismatch_escapes :
    (EntityTestTask.execute
        [("Product",
          { name := "Product"
            fields := [("name", ())]
            clsMethods := [("create", ["self"])]
            construct := fun fd =>
              if fd.all (fun kv => kv.1 == "name") then
                Except.ok ⟨[("create", fun _ => Except.ok (Val.vstr "created"))]⟩
              else Except.error ⟨ErrKind.typeError, "unexpected field"⟩ })]
        []
        ⟨"Product", "create", [("bogus", Val.vstr "x")], []⟩).1
      = Except.error ⟨ErrKind.typeError, "unexpected field"⟩
    ∧ raisesError (EntityTestTask.execute
        [("Product",
          { name := "Product"
            fields := [("name", ())]
            clsMethods := [("create", ["self"])]
            construct := fun fd =>
              if fd.all (fun kv => kv.1 == "name") then
                Except.ok ⟨[("create", fun _ => Except.ok (Val.vstr "created"))]⟩
              else Except.error ⟨ErrKind.typeError, "unexpected field"⟩ })]
        []
        ⟨"Product", "create", [("bogus", Val.vstr "x")], []⟩).1 = true :=
  ⟨rfl, rfl⟩

/-- C3 counterexample: on a tester whose `prep()` was never run (entity
still the constructor's string, fields and methods still `None`), forcing
`brute_force` raises `AttributeError` — it does not yield an empty
sequence, refuting the claim as stated. -/
theorem brute_force_unprepped_counterexample :
    raisesError (EntityTester.brute_force []
        ⟨EntityRef.str "Product", none, none⟩ none none) = true
    ∧ EntityTester.brute_force [] ⟨EntityRef.str "Product", none, none⟩ none none
      = Except.error ⟨ErrKind.attributeError, "str object has no attribute __name__"⟩ :=
  ⟨rfl, rfl⟩

/-- C3 amended: if `prep()` was never successfully run (entity still a
string name, fields and methods unset), iterating `brute_force` raises
`AttributeError` at `self.entity.__name__` (line 55) rather than yielding
an empty sequence. -/
theorem brute_force_unprepped_raises (gens : List (String × Except PyErr Val))
    (mf mi : Option Nat) (s : String) :
    EntityTester.brute_force gens ⟨EntityRef.str s, none, none⟩ mf mi
    = Except.error ⟨ErrKind.attributeError, "str object has no attribute __name__"⟩ :=
  rfl

/-- C4 counterexample: `prep()` on a tester holding an entity name absent
from the registry raises `TypeError` (the still-string entity is called as
a constructor inside `pull_fields`), refuting the claim that `prep` returns
without error leaving the tester uninitialized. -/
theorem prep_unresolved_counterexample :
    raisesError (EntityTester.prep []
        ⟨EntityRef.str "Bogus", none, none⟩ EntityRef.pynone none none) = true
    ∧ EntityTester.prep [] ⟨EntityRef.str "Bogus", none, none⟩ EntityRef.pynone none none
      = Except.error ⟨ErrKind.typeError, "str object is not callable"⟩ :=
  ⟨rfl, rfl⟩

/-- C4 amended: when the stored entity is a nonempty string name that the
registry cannot resolve, `prep()` raises `TypeError`: the name survives
resolution as a truthy string, and `pull_fields` then calls it as if it
were a class (line 110).  Fields and methods are still unset at the
raise. -/
theorem prep_unresolved_string_raises (reg : List (String × EntityCls)) (s : String)
    (f : Option (List (String × Unit))) (m : Option (List (String × List String)))
    (e : EntityRef) (fx mx : Option (List String))
    (hs : s ≠ "") (hl : reg.lookup s = none) :
    EntityTester.prep reg ⟨EntityRef.str s, f, m⟩ e fx mx
    = Except.error ⟨ErrKind.typeError, "str object is not callable"⟩ := by
  simp only [EntityTester.prep, EntityTester.pull_entities, dictionary_exclusion, hl]
  simp [EntityRef.truthy, hs, EntityTester.pull_fields]

/-- Witness for the C4 theorem at a concrete input. -/
theorem prep_unresolved_string_raises_witness :
    ("Bogus" ≠ "" ∧ List.lookup "Bogus" ([] : List (String × EntityCls)) = none)
    ∧ EntityTester.prep [] ⟨EntityRef.str "Bogus", none, none⟩ EntityRef.pynone none none
      = Except.error ⟨ErrKind.typeError, "str object is not callable"⟩ :=
  ⟨⟨by decide, rfl⟩,
    prep_unresolved_string_raises [] "Bogus" none none EntityRef.pynone none none
      (by decide) rfl⟩

/-- C5: during `execute()`, every string value of the field and argument
mappings that names a registered generator is replaced by the result of
invoking that generator, and every value not found in the registry is kept
as a literal; when no generator raises, resolution itself never raises and
the task afterwards carries exactly the resolved mappings. -/
theorem execute_resolves_mappings (ents : List (String × EntityCls))
    (gens : List (String × Except PyErr Val)) (t : EntityTestTask)
    (h : generators_total (EntityTester.pull_input_methods gens none)) :
    (EntityTestTask.execute ents gens t).2.field_dict
      = t.field_dict.map
          (fun kv => (kv.1, spec_resolve (EntityTester.pull_input_methods gens none) kv.2))
    ∧ (EntityTestTask.execute ents gens t).2.arg_dict
      = t.arg_dict.map
          (fun kv => (kv.1, spec_resolve (EntityTester.pull_input_methods gens none) kv.2)) := by
  have h1 := resolveDict_total _ h t.field_dict
  have h2 := resolveDict_total _ h t.arg_dict
  simp [EntityTestTask.execute, h1, h2]

/-- Witness for the C5 theorem at a concrete input: `g1` is a registered
generator and is invoked, `lit` is not registered and is kept verbatim. -/
theorem execute_resolves_mappings_witness :
    generators_total (EntityTester.pull_input_methods [("g1", Except.ok (Val.vnat 7))] none)
    ∧ (EntityTestTask.execute [] [("g1", Except.ok (Val.vnat 7))]
          ⟨"E", "m", [("a", Val.vstr "g1")], [("b", Val.vstr "lit")]⟩).2.field_dict
        = [("a", Val.vstr "g1")].map
            (fun kv => (kv.1,
              spec_resolve (EntityTester.pull_input_methods
                [("g1", Except.ok (Val.vnat 7))] none) kv.2))
    ∧ (EntityTestTask.execute [] [("g1", Except.ok (Val.vnat 7))]
          ⟨"E", "m", [("a", Val.vstr "g1")], [("b", Val.vstr "lit")]⟩).2.arg_dict
        = [("b", Val.vstr "lit")].map
            (fun kv => (kv.1,
              spec_resolve (EntityTester.pull_input_methods
                [("g1", Except.ok (Val.vnat 7))] none) kv.2)) := by
  have hp : generators_total
      (EntityTester.pull_input_methods [("g1", Except.ok (Val.vnat 7))] none) := by
    intro s g hg
    by_cases hc : s = "g1"
    · subst hc
      simp [EntityTester.pull_input_methods, dictionary_exclusion, hasDunder,
        containsDunder, List.lookup] at hg
      exact ⟨Val.vnat 7, hg.symm⟩
    · have hb : (s == "g1") = false := by simp [hc]
      simp [EntityTester.pull_input_methods, dictionary_exclusion, hasDunder,
        containsDunder, List.lookup, hb] at hg
  exact ⟨hp, execute_resolves_mappings [] [("g1", Except.ok (Val.vnat 7))]
    ⟨"E", "m", [("a", Val.vstr "g1")], [("b", Val.vstr "lit")]⟩ hp⟩

/-- C6: `brute_force` is a deterministic enumeration — two invocations with
identical arguments on testers in the same prepared state (same resolved
entity, same gathered fields and methods, same registry) produce the same
task sequence, element for element. -/
theorem brute_force_deterministic (gens : List (String × Except PyErr Val))
    (t1 t2 : EntityTester) (mf mi : Option Nat)
    (he : t1.entity = t2.entity) (hf : t1.fields = t2.fields)
    (hm : t1.methods = t2.methods) :
    EntityTester.brute_force gens t1 mf mi = EntityTester.brute_force gens t2 mf mi := by
  cases t1 with
  | mk e1 f1 m1 =>
    cases t2 with
    | mk e2 f2 m2 =>
      have h : (⟨e1, f1, m1⟩ : EntityTester) = ⟨e2, f2, m2⟩ := by
        rw [show e1 = e2 from he, show f1 = f2 from hf, show m1 = m2 from hm]
      rw [h]

/-- Witness for the C6 theorem at a concrete prepared tester. -/
theorem brute_force_deterministic_witness :
    ((⟨EntityRef.pynone, some [("f1", ())], some [("create", ["self"])]⟩ :
        EntityTester).entity
      = (⟨EntityRef.pynone, some [("f1", ())], some [("create", ["self"])]⟩ :
        EntityTester).entity)
    ∧ EntityTester.brute_force [("g1", Except.ok (Val.vnat 1))]
        ⟨EntityRef.pynone, some [("f1", ())], some [("create", ["self"])]⟩ none none
      = EntityTester.brute_force [("g1", Except.ok (Val.vnat 1))]
        ⟨EntityRef.pynone, some [("f1", ())], some [("create", ["self"])]⟩ none none :=
  ⟨rfl, brute_force_deterministic [("g1", Except.ok (Val.vnat 1))]
    ⟨EntityRef.pynone, some [("f1", ())], some [("create", ["self"])]⟩
    ⟨EntityRef.pynone, some [("f1", ())], some [("create", ["self"])]⟩
    none none rfl rfl rfl⟩

/-- C7: the bound brute_force applies to each operation's argument cross
product (line 69, `max_inputs if max_inputs <= len(args) else len(args)`)
is the smaller of `max_inputs` and the operation's declared parameter
count; and when `max_inputs` is unspecified it is first defaulted to the
candidate generator count (lines 58-59). -/
theorem brute_arg_bound_is_min :
    (∀ max_inputs nargs : Nat, brute_arg_bound max_inputs nargs = min max_inputs nargs)
    ∧ (∀ ninputs : Nat, defaultMaxInputs none ninputs = ninputs) := by
  constructor
  · intro a b
    simp [brute_arg_bound, Nat.min_def]
  · intro n
    rfl

/-- C8: `execute()` rewrites the task's own stored mappings in place —
afterwards the task carries the resolved field and argument dicts — while
its entity name and method name are never touched. -/
theorem execute_mutates_only_mappings (ents : List (String × EntityCls))
    (gens : List (String × Except PyErr Val)) (t : EntityTestTask) :
    (EntityTestTask.execute ents gens t).2.entity = t.entity
    ∧ (EntityTestTask.execute ents gens t).2.method = t.method
    ∧ (∀ fd ad,
        resolveDict (EntityTester.pull_input_methods gens none) t.field_dict
          = Except.ok fd →
        resolveDict (EntityTester.pull_input_methods gens none) t.arg_dict
          = Except.ok ad →
        (EntityTestTask.execute ents gens t).2.field_dict = fd
        ∧ (EntityTestTask.execute ents gens t).2.arg_dict = ad) := by
  unfold EntityTestTask.execute
  cases h1 : resolveDict (EntityTester.pull_input_methods gens none) t.field_dict with
  | error e =>
      refine ⟨rfl, rfl, ?_⟩
      intro fd ad hfd had
      exact absurd hfd (by simp)
  | ok fd0 =>
      cases h2 : resolveDict (EntityTester.pull_input_methods gens none) t.arg_dict with
      | error e =>
          refine ⟨rfl, rfl, ?_⟩
          intro fd ad hfd had
          exact absurd had (by simp)
      | ok ad0 =>
          refine ⟨rfl, rfl, ?_⟩
          intro fd ad hfd had
          have hfd' : fd0 = fd := Except.ok.inj hfd
          have had' : ad0 = ad := Except.ok.inj had
          subst hfd'
          subst had'
          exact ⟨rfl, rfl⟩

/-- Witness for the C8 theorem at a concrete input. -/
theorem execute_mutates_only_mappings_witness :
    (resolveDict (EntityTester.pull_input_methods [] none) [("a", Val.vstr "x")]
      = Except.ok [("a", Val.vstr "x")])
    ∧ (EntityTestTask.execute [] []
        ⟨"E", "m", [("a", Val.vstr "x")], [("b", Val.vnat 2)]⟩).2.field_dict
      = [("a", Val.vstr "x")]
    ∧ (EntityTestTask.execute [] []
        ⟨"E", "m", [("a", Val.vstr "x")], [("b", Val.vnat 2)]⟩).2.arg_dict
      = [("b", Val.vnat 2)]
    ∧ (EntityTestTask.execute [] []
        ⟨"E", "m", [("a", Val.vstr "x")], [("b", Val.vnat 2)]⟩).2.entity = "E" := by
  have h := execute_mutates_only_mappings [] []
    ⟨"E", "m", [("a", Val.vstr "x")], [("b", Val.vnat 2)]⟩
  have h3 := h.2.2 [("a", Val.vstr "x")] [("b", Val.vnat 2)] rfl rfl
  exact ⟨rfl, h3.1, h3.2, h.1⟩

/-- C9: calling `brute_force` with `max_inputs = 0` behaves exactly like
leaving `max_inputs` unspecified — the `if not max_inputs:` truthiness test
(line 58) replaces `0` by the candidate generator count. -/
theorem brute_force_zero_max_inputs (gens : List (String × Except PyErr Val))
    (t : EntityTester) (mf : Option Nat) :
    EntityTester.brute_force gens t mf (some 0)
    = EntityTester.brute_force gens t mf none :=
  rfl

/-- C10: when the tester holds a string entity name, `prep()` ignores the
`entity` argument it was given — lines 27-28 overwrite the parameter with
the stored name, so any two parameter values lead to the same outcome. -/
theorem prep_ignores_entity_argument (reg : List (String × EntityCls))
    (t : EntityTester) (x y : EntityRef) (fx mx : Option (List String))
    (s : String) (h : t.entity = EntityRef.str s) :
    EntityTester.prep reg t x fx mx = EntityTester.prep reg t y fx mx := by
  cases t with
  | mk e f m =>
    have h' : e = EntityRef.str s := h
    subst h'
    rfl

/-- Witness for the C10 theorem at a concrete input: the parameter names an
existing entity class, yet the stored (unresolvable) string wins. -/
theorem prep_ignores_entity_argument_witness :
    ((⟨EntityRef.str "Bogus", none, none⟩ : EntityTester).entity
      = EntityRef.str "Bogus")
    ∧ EntityTester.prep [] ⟨EntityRef.str "Bogus", none, none⟩
        (EntityRef.str "Product") none none
      = EntityTester.prep [] ⟨EntityRef.str "Bogus", none, none⟩
        EntityRef.pynone none none :=
  ⟨rfl, prep_ignores_entity_argument [] ⟨EntityRef.str "Bogus", none, none⟩
    (EntityRef.str "Product") EntityRef.pynone none none "Bogus" rfl⟩
